import Mathlib

/-!
Shallow embedding of the v-sizer resource accounting and sizing engine
(src/src/lib.rs).  Machine integers are modelled as follows:

* `memory` is stored in the source as an `AdjustedByte` whose underlying byte
  count is a `u128` (`get_byte().get_bytes()`); every arithmetic step goes
  through `adjusted_from_bytes`, i.e. the byte count is re-normalised into a
  display unit and back.  That round trip (u128 -> f64 value in a unit ->
  u128) is exact for byte counts whose significand fits in an f64 and is
  modelled here as the identity, so `memory` is a `ZMod U128`: u128
  arithmetic with release-mode wrap-around semantics (checked builds would
  panic on overflow instead; either way no negative value is ever produced).
* `cpus` and `vcpus` are `i64` in the source; they are modelled as unbounded
  `Int` (no claim hinges on i64 wrap-around).
* `cpu_over_commit_ratio` is an `f32`; it is modelled as an exact rational.
  Float divisions followed by `floor()`/`as u64`/`as i64` casts are modelled
  as exact rational arithmetic followed by the corresponding rounding and
  saturating conversion (Rust float-to-int `as` casts saturate, and send
  NaN to 0).
-/

def U128 : Nat := 2 ^ 128

def U64MAX : Nat := 2 ^ 64 - 1

def I64MAX : Int := 2 ^ 63 - 1

def I64MIN : Int := -(2 ^ 63)

/-- Resources (lib.rs line 7): memory byte count (u128 behind `AdjustedByte`),
physical cpu count (i64) and an optional vcpu count (i64). -/
structure Resources where
  memory : ZMod U128
  cpus : Int
  vcpus : Option Int
deriving DecidableEq

/-- ops::Add for Resources (lib.rs line 19). -/
def Resources.add (a b : Resources) : Resources :=
  { memory := a.memory + b.memory
    cpus := a.cpus + b.cpus
    vcpus :=
      match a.vcpus, b.vcpus with
      | some v, some rv => some (v + rv)
      | some v, none => some v
      | none, some rv => some rv
      | none, none => none }

/-- ops::Sub for Resources (lib.rs lines 29 and 39). -/
def Resources.sub (a b : Resources) : Resources :=
  { memory := a.memory - b.memory
    cpus := a.cpus - b.cpus
    vcpus :=
      match a.vcpus, b.vcpus with
      | some v, some rv => some (v - rv)
      | some v, none => some v
      | none, some rv => some rv
      | none, none => none }

/-- ops::Mul of Resources by a u64 count (lib.rs line 49). -/
def Resources.mul (a : Resources) (n : Nat) : Resources :=
  { memory := a.memory * (n : ZMod U128)
    cpus := a.cpus * (n : Int)
    vcpus :=
      match a.vcpus with
      | some v => some (v * (n : Int))
      | none => none }

/-- InstanceType (lib.rs line 83). -/
structure InstanceType where
  name : String
  guest : Resources
  consumed_by_system : Resources
  reserved_for_overhead : Resources
deriving DecidableEq

/-- Workloads (lib.rs line 68): vm_count is a u64. -/
structure Workloads where
  vm_count : Nat
  instance_type : InstanceType
deriving DecidableEq

/-- Node (lib.rs line 134). -/
structure Node where
  description : String
  capacity : Resources
  consumed_by_system : Resources
  reserved_for_overhead : Resources
deriving DecidableEq

/-- ClusterTopology (lib.rs line 164).  The source field
`cpu_over_commit_ratio` is an f32, modelled as an exact rational; the field
is named `cpu_over_commit` here. -/
structure ClusterTopology where
  schedulable_control_plane : Bool
  control_plane_node : Node
  worker_node : Node
  cpu_over_commit : ℚ
deriving DecidableEq

/-- Cluster (lib.rs line 177): both counts are u64. -/
structure Cluster where
  topology : ClusterTopology
  control_plane_node_count : Nat
  worker_node_count : Nat
deriving DecidableEq

/-- ClusterResources (lib.rs line 243). -/
structure ClusterResources where
  consumed_by_system : Resources
  reserved_for_overhead : Resources
  available_to_workloads : Resources
deriving DecidableEq

/-- ReasonedResult (lib.rs line 259); a Reason is a String. -/
structure ReasonedResult (T : Type) where
  result : T
  reasons : List String
deriving DecidableEq

/-- resource_footprint (lib.rs line 109): guest + consumed_by_system +
reserved_for_overhead, left associated. -/
def InstanceType.resource_footprint (t : InstanceType) : Resources :=
  (t.guest.add t.consumed_by_system).add t.reserved_for_overhead

/-- compute_allocatable (lib.rs line 148): capacity - consumed_by_system -
reserved_for_overhead, left associated. -/
def Node.compute_allocatable (n : Node) : Resources :=
  (n.capacity.sub n.consumed_by_system).sub n.reserved_for_overhead

/-- Rust `as u64` cast of an f64 holding an integer: saturates at 0 and at
u64::MAX. -/
def intToU64sat (x : Int) : Nat :=
  if x < 0 then 0 else min x.toNat U64MAX

/-- The memory bound of how_many_fit_into (lib.rs line 120):
`(avail as f64 / req as f64).floor() as u64` on u128 byte counts.  A zero
divisor gives +inf (cast saturates to u64::MAX) unless the dividend is also
zero (NaN, cast gives 0). -/
def memBoundU64 (avail req : Nat) : Nat :=
  if req = 0 then (if avail = 0 then 0 else U64MAX)
  else min (avail / req) U64MAX

/-- The cpu bound of how_many_fit_into (lib.rs line 121): same f64 division
and floor, on i64 cpu counts. -/
def cpuBoundU64 (avail req : Int) : Nat :=
  if req = 0 then (if 0 < avail then U64MAX else 0)
  else intToU64sat (Int.fdiv avail req)

/-- how_many_fit_into (lib.rs line 117). -/
def InstanceType.how_many_fit_into (t : InstanceType) (resources : ClusterResources) :
    Nat × String :=
  let avail := resources.available_to_workloads
  let req := t.resource_footprint
  let fit_into_memory := memBoundU64 avail.memory.val req.memory.val
  let fit_into_cpu := cpuBoundU64 avail.cpus req.cpus
  if fit_into_memory < fit_into_cpu then (fit_into_memory, "Memory constraint")
  else if fit_into_cpu < fit_into_memory then (fit_into_cpu, "CPU constraint")
  else (fit_into_cpu, "CPU and memory constratint")

/-- Floor of a rational, computed on its normalised numerator/denominator. -/
def ratFloor (q : ℚ) : Int := Int.fdiv q.num q.den

/-- Ceiling of a rational. -/
def ratCeil (q : ℚ) : Int := -ratFloor (-q)

/-- Rust float-to-int truncation toward zero. -/
def ratTrunc (q : ℚ) : Int := if q < 0 then ratCeil q else ratFloor q

/-- Rust `as i64` cast of a finite float: truncate toward zero and saturate
at the i64 bounds. -/
def i64satTrunc (q : ℚ) : Int :=
  let t := ratTrunc q
  if t < I64MIN then I64MIN else if I64MAX < t then I64MAX else t

/-- The vcpus annotation of Cluster::resources (lib.rs line 232):
`(cpus as f32 * (1.0 / ratio)) as i64`.  A zero ratio gives an infinite (or
NaN, when cpus is 0) product, which the saturating cast clamps. -/
def vcpusAnnot (cpus : Int) (r : ℚ) : Int :=
  if r = 0 then (if 0 < cpus then I64MAX else if cpus < 0 then I64MIN else 0)
  else i64satTrunc ((cpus : ℚ) * (1 / r))

/-- Cluster::resources (lib.rs line 210). -/
def Cluster.resources (c : Cluster) : ClusterResources :=
  let worker_node := c.topology.worker_node
  let consumed := worker_node.consumed_by_system.mul c.worker_node_count
  let overhead := worker_node.reserved_for_overhead.mul c.worker_node_count
  let workload := worker_node.compute_allocatable.mul c.worker_node_count
  let ctl_node := c.topology.control_plane_node
  let ctl_capacity := ctl_node.capacity.mul c.control_plane_node_count
  let ctl_consumed := ctl_node.consumed_by_system.mul c.control_plane_node_count
  let ctl_overhead := ctl_node.reserved_for_overhead.mul c.control_plane_node_count
  let ctl_workload := (ctl_capacity.sub ctl_consumed).sub ctl_overhead
  let consumed := if c.topology.schedulable_control_plane then consumed.add ctl_consumed else consumed
  let overhead := if c.topology.schedulable_control_plane then overhead.add ctl_overhead else overhead
  let workload := if c.topology.schedulable_control_plane then workload.add ctl_workload else workload
  { consumed_by_system := consumed
    reserved_for_overhead := overhead
    available_to_workloads :=
      { workload with vcpus := some (vcpusAnnot workload.cpus c.topology.cpu_over_commit) } }

/-- Workloads::required_resources (lib.rs line 271): the guest resources
scaled by vm_count (the memory scaling happens on the u128 byte count, the
cpu and vcpu scalings on i64 after an `as i64` cast of vm_count). -/
def Workloads.required_resources (w : Workloads) : Resources :=
  { memory := w.instance_type.guest.memory * (w.vm_count : ZMod U128)
    cpus := w.instance_type.guest.cpus * (w.vm_count : Int)
    vcpus :=
      match w.instance_type.guest.vcpus with
      | some v => some (v * (w.vm_count : Int))
      | none => none }

/-- Workloads::can_fit_into (lib.rs line 281): the memory comparison is on
u128 byte counts, the cpu comparison on i64. -/
def Workloads.can_fit_into (w : Workloads) (resources : ClusterResources) :
    ReasonedResult Bool :=
  let avail := resources.available_to_workloads
  let req := w.required_resources
  if avail.memory.val < req.memory.val then
    { result := false, reasons := ["Constrained by memory"] }
  else if avail.cpus < req.cpus then
    { result := false, reasons := ["Constrained by pCPU"] }
  else
    { result := true, reasons := [] }

/-- One iteration test of the sizing loop (lib.rs line 197): does the
workload fit into the cluster with 3 control plane nodes and n workers? -/
def fitsAt (t : ClusterTopology) (w : Workloads) (n : Nat) : Bool :=
  (w.can_fit_into (Cluster.resources { topology := t, control_plane_node_count := 3, worker_node_count := n })).result

/-- The loop of Cluster::for_topology_and_workload (lib.rs lines 196 to 201):
evaluate the fit at the current count, increment unconditionally, stop when
the pre-increment evaluation fitted.  The source loop has no bound; the
explicit fuel argument makes every finite prefix of its execution visible,
with `none` meaning that the loop is still running after `fuel` iterations. -/
def sizeLoop (t : ClusterTopology) (w : Workloads) : Nat → Nat → Option Nat
  | 0, _ => none
  | fuel + 1, n => if fitsAt t w n then some (n + 1) else sizeLoop t w fuel (n + 1)

/-- The fixed explanatory reason pushed after the loop (lib.rs line 202). -/
def drainNote : String :=
  "One additional node is getting included on top of the required ones, in order to enable full-node drains required for updating the cluster"

/-- Cluster::for_topology_and_workload (lib.rs line 187), with the loop
bounded by explicit fuel as in `sizeLoop`. -/
def Cluster.for_topology_and_workload (fuel : Nat) (topology : ClusterTopology)
    (workloads : Workloads) : Option (ReasonedResult Cluster) :=
  match sizeLoop topology workloads fuel 0 with
  | some n =>
      some { result := { topology := topology, control_plane_node_count := 3, worker_node_count := n }
             reasons := [drainNote] }
  | none => none

/-! ## Claim C4: the workload fit test -/

/-- C4: `Workloads.can_fit_into` compares the available resources against
`guest * vm_count`; it fails with the single memory reason when available
memory is short, else with the single cpu reason when available cpus are
short (so the memory check is evaluated first and masks a simultaneous cpu
violation), else succeeds with no reasons. -/
theorem c4_can_fit_into_spec (w : Workloads) (r : ClusterResources) :
    w.required_resources = w.instance_type.guest.mul w.vm_count ∧
    w.can_fit_into r =
      (if r.available_to_workloads.memory.val < (w.instance_type.guest.mul w.vm_count).memory.val then
        { result := false, reasons := ["Constrained by memory"] }
      else if r.available_to_workloads.cpus < (w.instance_type.guest.mul w.vm_count).cpus then
        { result := false, reasons := ["Constrained by pCPU"] }
      else { result := true, reasons := [] }) :=
  ⟨rfl, rfl⟩

/-! ## Claim C6: the vcpus combination rule -/

/-- C6: for addition and subtraction the vcpus field combines with the
operator when both sides carry a value, propagates the present value
unchanged when exactly one side carries one (also for subtraction with only
the right side present), and stays absent when both are absent; scalar
multiplication scales a present value and keeps an absent one absent. -/
theorem c6_vcpus_combination (a b : Resources) (n : Nat) :
    ((a.add b).vcpus = match a.vcpus, b.vcpus with
      | some v, some rv => some (v + rv)
      | some v, none => some v
      | none, some rv => some rv
      | none, none => none) ∧
    ((a.sub b).vcpus = match a.vcpus, b.vcpus with
      | some v, some rv => some (v - rv)
      | some v, none => some v
      | none, some rv => some rv
      | none, none => none) ∧
    ((a.mul n).vcpus = match a.vcpus with
      | some v => some (v * (n : Int))
      | none => none) :=
  ⟨rfl, rfl, rfl⟩

/-! ## Claim C5: add/sub round trips -/

/-- C5 counterexample: with a = (0, 0, some 4) and b = (0, 0, none), the
value (a + b) - a has vcpus some 0 while b has vcpus none, so the claimed
field-wise identity (a + b) - a = b fails on the vcpus field. -/
theorem c5_counterexample :
    (Resources.add ⟨0, 0, some 4⟩ ⟨0, 0, none⟩).sub ⟨0, 0, some 4⟩ ≠
      (⟨0, 0, none⟩ : Resources) := by
  decide

/-- C5 amended: (a + b) - b = a and (a + b) - a = b hold unconditionally on
the memory and cpus fields; on vcpus the result of (a + b) - b equals
a.vcpus except when a alone lacks vcpus (then it is some 0), and
symmetrically for (a + b) - a. -/
theorem c5_add_sub_amended (a b : Resources) :
    ((a.add b).sub b).memory = a.memory ∧ ((a.add b).sub b).cpus = a.cpus ∧
    ((a.add b).sub a).memory = b.memory ∧ ((a.add b).sub a).cpus = b.cpus ∧
    ((a.add b).sub b).vcpus = (if a.vcpus = none ∧ b.vcpus ≠ none then some 0 else a.vcpus) ∧
    ((a.add b).sub a).vcpus = (if b.vcpus = none ∧ a.vcpus ≠ none then some 0 else b.vcpus) := by
  refine ⟨?_, ?_, ?_, ?_, ?_, ?_⟩
  · simp [Resources.add, Resources.sub]
  · simp [Resources.add, Resources.sub]
  · simp [Resources.add, Resources.sub]
  · simp [Resources.add, Resources.sub]
  · cases ha : a.vcpus <;> cases hb : b.vcpus <;> simp [Resources.add, Resources.sub, ha, hb]
  · cases ha : a.vcpus <;> cases hb : b.vcpus <;> simp [Resources.add, Resources.sub, ha, hb]

/-! ## Claim C8: subtraction semantics -/

/-- C8 counterexample: subtracting memory 1 from memory 0 does not give the
ordinary-integer result -1; the u128 byte count wraps to 2^128 - 1. -/
theorem c8_counterexample :
    (Resources.sub ⟨0, 0, none⟩ ⟨1, 0, none⟩).memory.val = U128 - 1 ∧
    ¬ ((Resources.sub ⟨0, 0, none⟩ ⟨1, 0, none⟩).memory.val : Int) = (0 : Int) - 1 := by
  constructor
  · decide
  · decide

/-- C8 amended: subtraction is total and the cpus field combines with
ordinary (i64) integer arithmetic and may go negative; the memory field is
an unsigned 128-bit byte count, so its subtraction wraps modulo 2^128
(checked builds would panic instead) and the result is never negative. -/
theorem c8_sub_amended (a b : Resources) :
    (a.sub b).cpus = a.cpus - b.cpus ∧
    (a.sub b).memory = a.memory - b.memory ∧
    0 ≤ ((a.sub b).memory.val : Int) :=
  ⟨rfl, rfl, by positivity⟩

/-! ## Claim C3: the cluster aggregation identity -/

/-- Concrete node for the C3 counterexample: all fields zero, no vcpus. -/
def c3Node : Node :=
  { description := "n"
    capacity := ⟨0, 0, none⟩
    consumed_by_system := ⟨0, 0, none⟩
    reserved_for_overhead := ⟨0, 0, none⟩ }

/-- Concrete cluster for the C3 counterexample: non-schedulable control
plane, one worker. -/
def c3Cluster : Cluster :=
  { topology :=
      { schedulable_control_plane := false
        control_plane_node := c3Node
        worker_node := c3Node
        cpu_over_commit := 1 }
    control_plane_node_count := 3
    worker_node_count := 1 }

/-- C3 counterexample: with a non-schedulable control plane the claim says
available_to_workloads equals allocatable(worker) * worker_node_count as a
Resources value, but resources() overwrites the vcpus field with the
overcommit annotation (some value instead of none), so the equality fails. -/
theorem c3_counterexample :
    c3Cluster.resources.available_to_workloads ≠
      c3Cluster.topology.worker_node.compute_allocatable.mul c3Cluster.worker_node_count := by
  intro h
  have hv := congrArg Resources.vcpus h
  simp [Cluster.resources, Resources.mul, Node.compute_allocatable, Resources.sub,
    c3Cluster, c3Node] at hv

/-- C3 amended: available_to_workloads agrees with the closed-form aggregate
allocatable(worker) * worker_count [+ allocatable(control plane) *
control_plane_count when schedulable] on the memory and cpus fields (its
vcpus field is overwritten with the overcommit annotation), and the
consumed_by_system and reserved_for_overhead totals equal their closed-form
aggregates outright, with the control-plane contribution added exactly when
schedulable_control_plane is true. -/
theorem c3_resources_amended (c : Cluster) :
    c.resources.available_to_workloads.memory =
      (if c.topology.schedulable_control_plane then
        ((c.topology.worker_node.compute_allocatable.mul c.worker_node_count).add
          (c.topology.control_plane_node.compute_allocatable.mul c.control_plane_node_count))
      else c.topology.worker_node.compute_allocatable.mul c.worker_node_count).memory ∧
    c.resources.available_to_workloads.cpus =
      (if c.topology.schedulable_control_plane then
        ((c.topology.worker_node.compute_allocatable.mul c.worker_node_count).add
          (c.topology.control_plane_node.compute_allocatable.mul c.control_plane_node_count))
      else c.topology.worker_node.compute_allocatable.mul c.worker_node_count).cpus ∧
    c.resources.consumed_by_system =
      (if c.topology.schedulable_control_plane then
        ((c.topology.worker_node.consumed_by_system.mul c.worker_node_count).add
          (c.topology.control_plane_node.consumed_by_system.mul c.control_plane_node_count))
      else c.topology.worker_node.consumed_by_system.mul c.worker_node_count) ∧
    c.resources.reserved_for_overhead =
      (if c.topology.schedulable_control_plane then
        ((c.topology.worker_node.reserved_for_overhead.mul c.worker_node_count).add
          (c.topology.control_plane_node.reserved_for_overhead.mul c.control_plane_node_count))
      else c.topology.worker_node.reserved_for_overhead.mul c.worker_node_count) := by
  cases hs : c.topology.schedulable_control_plane with
  | false =>
    refine ⟨?_, ?_, ?_, ?_⟩ <;>
      simp [Cluster.resources, hs]
  | true =>
    refine ⟨?_, ?_, ?_, ?_⟩ <;>
      simp [Cluster.resources, hs, Resources.add, Resources.sub, Resources.mul,
        Node.compute_allocatable] <;>
      ring

/-! ## Claim C7: how_many_fit_into -/

/-- Instance type for the C7 counterexample: footprint memory 30, cpus 4. -/
def c7IT : InstanceType :=
  { name := "t"
    guest := ⟨30, 4, none⟩
    consumed_by_system := ⟨0, 0, none⟩
    reserved_for_overhead := ⟨0, 0, none⟩ }

/-- Cluster resources for the C7 counterexample: the available cpu count is
a deficit value, -5. -/
def c7CR : ClusterResources :=
  { consumed_by_system := ⟨0, 0, none⟩
    reserved_for_overhead := ⟨0, 0, none⟩
    available_to_workloads := ⟨100, -5, none⟩ }

/-- C7 counterexample: with available (memory 100, cpus -5) and footprint
(memory 30, cpus 4), the minimum of the floors is min(3, -2) = -2, but the
code returns 0 (the float-to-u64 cast saturates the negative cpu bound at
0), so the claimed result does not hold for every input with a positive
footprint. -/
theorem c7_counterexample :
    ((c7IT.how_many_fit_into c7CR).fst : Int) = 0 ∧
    min (Int.fdiv 100 30) (Int.fdiv (-5) 4) = -2 := by
  constructor
  · decide
  · decide

/-- C7 amended: when the footprint components are positive, the available
cpu count is non-negative, and neither floor exceeds u64::MAX (otherwise the
saturating float-to-u64 cast clamps into [0, 2^64 - 1]), how_many_fit_into
returns the minimum of floor(available.memory / footprint.memory) and
floor(available.cpus / footprint.cpus), tagged "Memory constraint" when the
memory bound is strictly smaller, "CPU constraint" when the cpu bound is
strictly smaller, and the tie tag when they agree. -/
theorem c7_how_many_amended (t : InstanceType) (r : ClusterResources)
    (hm : t.resource_footprint.memory.val ≠ 0)
    (hc : 0 < t.resource_footprint.cpus)
    (ha : 0 ≤ r.available_to_workloads.cpus)
    (hbm : r.available_to_workloads.memory.val / t.resource_footprint.memory.val ≤ U64MAX)
    (hbc : Int.fdiv r.available_to_workloads.cpus t.resource_footprint.cpus ≤ (U64MAX : Int)) :
    t.how_many_fit_into r =
      (min (r.available_to_workloads.memory.val / t.resource_footprint.memory.val)
        (Int.fdiv r.available_to_workloads.cpus t.resource_footprint.cpus).toNat,
       if r.available_to_workloads.memory.val / t.resource_footprint.memory.val <
            (Int.fdiv r.available_to_workloads.cpus t.resource_footprint.cpus).toNat then
         "Memory constraint"
       else if (Int.fdiv r.available_to_workloads.cpus t.resource_footprint.cpus).toNat <
            r.available_to_workloads.memory.val / t.resource_footprint.memory.val then
         "CPU constraint"
       else "CPU and memory constratint") := by
  have hnn : 0 ≤ Int.fdiv r.available_to_workloads.cpus t.resource_footprint.cpus :=
    Int.fdiv_nonneg ha (le_of_lt hc)
  have hcz : t.resource_footprint.cpus ≠ 0 := by omega
  have htn : (Int.fdiv r.available_to_workloads.cpus t.resource_footprint.cpus).toNat ≤ U64MAX := by
    omega
  have hcpu : cpuBoundU64 r.available_to_workloads.cpus t.resource_footprint.cpus
      = (Int.fdiv r.available_to_workloads.cpus t.resource_footprint.cpus).toNat := by
    simp [cpuBoundU64, hcz, intToU64sat, not_lt.mpr hnn, Nat.min_eq_left htn]
  have hmem : memBoundU64 r.available_to_workloads.memory.val t.resource_footprint.memory.val
      = r.available_to_workloads.memory.val / t.resource_footprint.memory.val := by
    simp [memBoundU64, hm, Nat.min_eq_left hbm]
  simp only [InstanceType.how_many_fit_into]
  rw [hmem, hcpu]
  rcases Nat.lt_trichotomy
      (r.available_to_workloads.memory.val / t.resource_footprint.memory.val)
      (Int.fdiv r.available_to_workloads.cpus t.resource_footprint.cpus).toNat with h | h | h
  · simp [h, Nat.lt_asymm h, Nat.min_eq_left (Nat.le_of_lt h)]
  · simp [h, Nat.min_eq_left (Nat.le_of_eq h)]
  · simp [h, Nat.lt_asymm h, Nat.min_eq_right (Nat.le_of_lt h)]

/-- Instance type for the C7 witness: footprint memory 30, cpus 4 (the
worked example of the specification). -/
def c7wIT : InstanceType :=
  { name := "t"
    guest := ⟨30, 4, none⟩
    consumed_by_system := ⟨0, 0, none⟩
    reserved_for_overhead := ⟨0, 0, none⟩ }

/-- Cluster resources for the C7 witness: available memory 100, cpus 10. -/
def c7wCR : ClusterResources :=
  { consumed_by_system := ⟨0, 0, none⟩
    reserved_for_overhead := ⟨0, 0, none⟩
    available_to_workloads := ⟨100, 10, none⟩ }

/-- C7 witness: floor(100/30) = 3 against floor(10/4) = 2 gives (2, cpu tag). -/
theorem c7_witness : c7wIT.how_many_fit_into c7wCR = (2, "CPU constraint") := by
  rw [c7_how_many_amended c7wIT c7wCR (by decide) (by decide) (by decide) (by decide) (by decide)]
  decide

/-! ## Claim C9: the vcpus annotation -/

lemma ratFloor_eq_floor (q : ℚ) : ratFloor q = ⌊q⌋ := by
  have h : (0 : Int) ≤ (q.den : Int) := by positivity
  rw [ratFloor, Int.fdiv_eq_ediv _ h, Rat.floor_def]

lemma ratCeil_eq_ceil (q : ℚ) : ratCeil q = ⌈q⌉ := by
  rw [ratCeil, ratFloor_eq_floor, Int.floor_neg, neg_neg]

lemma ratTrunc_spec (q : ℚ) : ratTrunc q = if q < 0 then ⌈q⌉ else ⌊q⌋ := by
  rw [ratTrunc]
  by_cases h : q < 0
  · simp [h, ratCeil_eq_ceil]
  · simp [h, ratFloor_eq_floor]

lemma i64satTrunc_spec (q : ℚ) :
    i64satTrunc q = max I64MIN (min I64MAX (if q < 0 then ⌈q⌉ else ⌊q⌋)) := by
  simp only [i64satTrunc, ratTrunc_spec, I64MIN, I64MAX]
  split_ifs <;> omega

/-- Worker node for the C9 counterexample: consumed cpus exceed capacity, a
deficit the specification declares a valid diagnostic state. -/
def c9cexNode : Node :=
  { description := "w"
    capacity := ⟨0, 0, none⟩
    consumed_by_system := ⟨0, 5, none⟩
    reserved_for_overhead := ⟨0, 0, none⟩ }

/-- Cluster for the C9 counterexample: one worker with allocatable cpus -5,
overcommit ratio 2/5. -/
def c9cexCluster : Cluster :=
  { topology :=
      { schedulable_control_plane := false
        control_plane_node := c9cexNode
        worker_node := c9cexNode
        cpu_over_commit := 2 / 5 }
    control_plane_node_count := 3
    worker_node_count := 1 }

/-- C9 counterexample: with aggregated available cpus -5 and overcommit
ratio 2/5 the quotient is -12.5; the as-i64 cast truncates toward zero, so
the code annotates vcpus = -12, while the claimed floor is -13.  The claim
is therefore false on the deficit clusters its quantifier includes. -/
theorem c9_counterexample :
    c9cexCluster.resources.available_to_workloads.vcpus ≠
      some ⌊(c9cexCluster.resources.available_to_workloads.cpus : ℚ) /
        c9cexCluster.topology.cpu_over_commit⌋ := by
  have hcpus : c9cexCluster.resources.available_to_workloads.cpus = -5 := by decide
  have hr : c9cexCluster.topology.cpu_over_commit = 2 / 5 := rfl
  have hlhs : c9cexCluster.resources.available_to_workloads.vcpus =
      some (vcpusAnnot (-5) (2 / 5)) := by
    rw [show c9cexCluster.resources.available_to_workloads.vcpus =
      some (vcpusAnnot c9cexCluster.resources.available_to_workloads.cpus
        c9cexCluster.topology.cpu_over_commit) from rfl, hcpus, hr]
  have hval : vcpusAnnot (-5 : Int) (2 / 5) = -12 := by
    have hf : (⌊(25 / 2 : ℚ)⌋ : Int) = 12 := by norm_num
    rw [vcpusAnnot, if_neg (by norm_num : ¬ (2 / 5 : ℚ) = 0),
      show (((-5 : Int) : ℚ) * (1 / (2 / 5))) = -(25 / 2) from by norm_num,
      i64satTrunc_spec, if_pos (by norm_num : (-(25 / 2) : ℚ) < 0), Int.ceil_neg, hf]
    simp only [I64MIN, I64MAX]
    omega
  rw [hlhs, hval, hcpus, hr]
  simp only [ne_eq, Option.some.injEq]
  norm_num

/-- C9 amended: for every cluster with a nonzero overcommit ratio, the
available_to_workloads value of Cluster.resources carries vcpus = the
quotient available cpus / ratio truncated toward zero (ceiling for a
negative quotient, floor otherwise) and clamped into the i64 range by the
saturating as-i64 cast; this equals floor(cpus / ratio) exactly on
non-negative in-range quotients.  And no arithmetic operation on Resources
invents a vcpus value: the result of add, sub, or mul carries no vcpus
exactly when the operands carried none. -/
theorem c9_vcpus_amended (c : Cluster) (hr : c.topology.cpu_over_commit ≠ 0) :
    c.resources.available_to_workloads.vcpus =
      some (max I64MIN (min I64MAX
        (if ((c.resources.available_to_workloads.cpus : ℚ) / c.topology.cpu_over_commit) < 0 then
          ⌈(c.resources.available_to_workloads.cpus : ℚ) / c.topology.cpu_over_commit⌉
        else
          ⌊(c.resources.available_to_workloads.cpus : ℚ) / c.topology.cpu_over_commit⌋))) ∧
    (∀ a b : Resources,
      ((a.add b).vcpus = none ↔ a.vcpus = none ∧ b.vcpus = none) ∧
      ((a.sub b).vcpus = none ↔ a.vcpus = none ∧ b.vcpus = none)) ∧
    (∀ (a : Resources) (n : Nat), (a.mul n).vcpus = none ↔ a.vcpus = none) := by
  refine ⟨?_, ?_, ?_⟩
  · show some (vcpusAnnot c.resources.available_to_workloads.cpus c.topology.cpu_over_commit) = _
    rw [vcpusAnnot, if_neg hr,
      show ((c.resources.available_to_workloads.cpus : ℚ) * (1 / c.topology.cpu_over_commit)) =
        (c.resources.available_to_workloads.cpus : ℚ) / c.topology.cpu_over_commit from by ring,
      i64satTrunc_spec]
  · intro a b
    constructor <;> cases hva : a.vcpus <;> cases hvb : b.vcpus <;>
      simp [Resources.add, Resources.sub, hva, hvb]
  · intro a n
    cases hva : a.vcpus <;> simp [Resources.mul, hva]

/-- C9 witness: the amended theorem applied to the deficit cluster, whose
quotient -12.5 is negative, discharging the nonzero-ratio hypothesis. -/
theorem c9_amended_witness :
    c9cexCluster.resources.available_to_workloads.vcpus =
      some (max I64MIN (min I64MAX
        (if ((c9cexCluster.resources.available_to_workloads.cpus : ℚ) /
              c9cexCluster.topology.cpu_over_commit) < 0 then
          ⌈(c9cexCluster.resources.available_to_workloads.cpus : ℚ) /
            c9cexCluster.topology.cpu_over_commit⌉
        else
          ⌊(c9cexCluster.resources.available_to_workloads.cpus : ℚ) /
            c9cexCluster.topology.cpu_over_commit⌋))) :=
  (c9_vcpus_amended c9cexCluster (show (2 / 5 : ℚ) ≠ 0 by norm_num)).1

/-! ## Claim C1: the sizing search returns the minimum fitting count plus one -/

lemma sizeLoop_spec (t : ClusterTopology) (w : Workloads) (N : Nat)
    (hN : fitsAt t w N = true) (hmin : ∀ k, k < N → fitsAt t w k = false) :
    ∀ fuel start, start ≤ N → N < start + fuel → sizeLoop t w fuel start = some (N + 1) := by
  intro fuel
  induction fuel with
  | zero => intro start h1 h2; omega
  | succ n ih =>
    intro start h1 h2
    rcases Nat.lt_or_ge start N with h | h
    · have hf : fitsAt t w start = false := hmin start h
      simp only [sizeLoop, hf, Bool.false_eq_true, if_false]
      exact ih (start + 1) (by omega) (by omega)
    · have heq : start = N := by omega
      subst heq
      simp [sizeLoop, hN]

/-- C1: whenever the workload fits at some worker count, the sizing search
started with enough fuel returns a cluster with 3 control plane nodes and
N + 1 worker nodes, where N is the least worker count at which the workload
fits (the loop evaluates the fit before the unconditional increment), and
the fixed drain-headroom reason. -/
theorem c1_for_topology_and_workload (t : ClusterTopology) (w : Workloads) (N fuel : Nat)
    (hN : fitsAt t w N = true)
    (hmin : ∀ k, k < N → fitsAt t w k = false)
    (hfuel : N < fuel) :
    Cluster.for_topology_and_workload fuel t w =
      some { result := { topology := t, control_plane_node_count := 3, worker_node_count := N + 1 }
             reasons := [drainNote] } := by
  have h := sizeLoop_spec t w N hN hmin fuel 0 (Nat.zero_le N) (by omega)
  simp [Cluster.for_topology_and_workload, h]

/-- Node for the C1 witness: a zero-capacity node (the empty workload below
fits into it already at zero workers). -/
def c1Node : Node :=
  { description := "w"
    capacity := ⟨0, 0, none⟩
    consumed_by_system := ⟨0, 0, none⟩
    reserved_for_overhead := ⟨0, 0, none⟩ }

/-- Topology for the C1 witness. -/
def c1Topo : ClusterTopology :=
  { schedulable_control_plane := false
    control_plane_node := c1Node
    worker_node := c1Node
    cpu_over_commit := 1 }

/-- Workload for the C1 witness: zero instances. -/
def c1Work : Workloads :=
  { vm_count := 0
    instance_type :=
      { name := "t"
        guest := ⟨1, 1, none⟩
        consumed_by_system := ⟨0, 0, none⟩
        reserved_for_overhead := ⟨0, 0, none⟩ } }

/-- C1 witness: the empty workload fits at N = 0 workers, so the search
returns worker_node_count 0 + 1 = 1 and control_plane_node_count 3. -/
theorem c1_witness :
    Cluster.for_topology_and_workload 1 c1Topo c1Work =
      some { result := { topology := c1Topo, control_plane_node_count := 3, worker_node_count := 1 }
             reasons := [drainNote] } :=
  c1_for_topology_and_workload c1Topo c1Work 0 1 (by decide)
    (by intro k hk; omega) (by omega)

/-! ## Claim C2: an unsatisfiable workload makes the search loop forever -/

/-- Node for the C2 failing input: zero capacity. -/
def unsatNode : Node :=
  { description := "w"
    capacity := ⟨0, 0, none⟩
    consumed_by_system := ⟨0, 0, none⟩
    reserved_for_overhead := ⟨0, 0, none⟩ }

/-- Topology for the C2 failing input: zero-capacity workers, control plane
not schedulable. -/
def unsatTopo : ClusterTopology :=
  { schedulable_control_plane := false
    control_plane_node := unsatNode
    worker_node := unsatNode
    cpu_over_commit := 1 }

/-- Workload for the C2 failing input: one instance wanting a cpu, while no
node provides any, so no finite worker count can ever fit it. -/
def unsatWork : Workloads :=
  { vm_count := 1
    instance_type :=
      { name := "t"
        guest := ⟨0, 1, none⟩
        consumed_by_system := ⟨0, 0, none⟩
        reserved_for_overhead := ⟨0, 0, none⟩ } }

lemma unsat_never_fits (n : Nat) : fitsAt unsatTopo unsatWork n = false := by
  simp [fitsAt, Workloads.can_fit_into, Workloads.required_resources, Cluster.resources,
    Node.compute_allocatable, Resources.sub, Resources.mul, unsatTopo, unsatWork, unsatNode]

lemma sizeLoop_unsat : ∀ fuel start, sizeLoop unsatTopo unsatWork fuel start = none := by
  intro fuel
  induction fuel with
  | zero => intro start; rfl
  | succ n ih =>
    intro start
    simp only [sizeLoop, unsat_never_fits, Bool.false_eq_true, if_false]
    exact ih (start + 1)

/-- C2: on a workload that no finite worker count can satisfy (one instance
demanding a cpu on zero-capacity nodes, control plane not schedulable), the
sizing search never terminates: for every iteration budget the loop is
still running and no "unsatisfiable capacity" error value exists anywhere
in the code to be returned. -/
theorem c2_unsat_loops_forever (fuel : Nat) :
    Cluster.for_topology_and_workload fuel unsatTopo unsatWork = none := by
  simp [Cluster.for_topology_and_workload, sizeLoop_unsat]

/-! ## Claim C10: invalid configuration is not rejected -/

/-- Instance type for the C10 failing input: an all-zero resource footprint,
which the claim says must be rejected as invalid input. -/
def c10IT : InstanceType :=
  { name := "z"
    guest := ⟨0, 0, none⟩
    consumed_by_system := ⟨0, 0, none⟩
    reserved_for_overhead := ⟨0, 0, none⟩ }

/-- Cluster resources for the C10 failing input. -/
def c10CR : ClusterResources :=
  { consumed_by_system := ⟨0, 0, none⟩
    reserved_for_overhead := ⟨0, 0, none⟩
    available_to_workloads := ⟨1, 1, none⟩ }

/-- C10: nothing rejects a zero-memory/zero-cpu footprint; how_many_fit_into
happily divides by zero and the +inf quotients are saturated by the
float-to-u64 casts to u64::MAX = 18446744073709551615, which is then
returned as a "fit count" instead of a declared invalid-input error. -/
theorem c10_no_invalid_input_rejection :
    c10IT.how_many_fit_into c10CR = (U64MAX, "CPU and memory constratint") ∧
    U64MAX = 18446744073709551615 := by
  constructor
  · decide
  · decide
